import Mathlib

/-
Verification of the CRM field-fallback synchronization core of the
rork-geo-1.2.1-hubspot-connect repository.

The TypeScript source is shallowly embedded: every external HTTP call made
through the service transport (`makeRequest`, `createNote`, the search and
association endpoints) is a parameter of the embedded function, modelled as a
total function returning `Except String α` (`.error msg` models a thrown
exception carrying its message, `.ok v` a resolved promise).  JavaScript
property bags become ordered association lists of `String × JVal`, where
`JVal` carries the dynamic values together with their truthiness.
-/

set_option maxHeartbeats 1000000

/-- Dynamic JavaScript value, as stored in the duck-typed property bags of the
source (`{ [key: string]: any }`).  Truthiness follows JavaScript. -/
inductive JVal where
  | str (s : String)
  | num (n : Int)
  | boolean (b : Bool)
  | null
deriving DecidableEq, Repr

/-- JavaScript truthiness of a dynamic value. -/
def JVal.truthy : JVal → Bool
  | .str s => !(s == "")
  | .num n => !(n == 0)
  | .boolean b => b
  | .null => false

/-- Rendering of a dynamic value inside a template literal. -/
def JVal.display : JVal → String
  | .str s => s
  | .num n => toString n
  | .boolean b => if b then "true" else "false"
  | .null => "null"

/-- An ordered JavaScript object of properties (`Object.keys` order is the
list order). -/
abbrev Props := List (String × JVal)

/-- Property access `props[field]`: `none` models `undefined`. -/
def lookupProp (props : Props) (field : String) : Option JVal :=
  (props.find? (fun p => p.1 == field)).map Prod.snd

inductive HttpMethod where
  | post | patch | get
deriving DecidableEq, Repr

/-- One call to `makeRequest`: the endpoint, method and the `properties`
payload sent to the HubSpot API. -/
structure Request where
  endpoint : String
  method : HttpMethod
  properties : Props
deriving DecidableEq, Repr

/-- The transport collaborator: performs one request, returning the created
record id (`result.id`) or the thrown error message. -/
abbrev ReqOracle := Request → Except String String

/-- Mirrors `interface SyncResult` of src/services/hubspot.ts. -/
structure SyncResult where
  success : Bool
  id : Option String
  failedFields : Props
  errors : List String
deriving DecidableEq, Repr

/-- The core-field payload assembled by `syncWithFallback`: every core field
whose value in `allProperties` is not `undefined`, in core-field order. -/
def corePropsOf (allProperties : Props) (coreFields : List String) : Props :=
  coreFields.filterMap (fun f => (lookupProp allProperties f).map (fun v => (f, v)))

/-- `Object.keys(allProperties).filter(field => !coreFields.includes(field))`. -/
def remainingFields (allProperties : Props) (coreFields : List String) : List String :=
  (allProperties.map Prod.fst).filter (fun f => !(coreFields.contains f))

/-- The remaining-field sweep of `syncWithFallback` (the final `for` loop):
one individual `PATCH` per remaining field against the known record id,
collecting failed fields and error strings, never aborting.  The second
component of the result is the trace of transport requests issued. -/
def sweepFields (req : ReqOracle) (endpoint rid : String) (allProperties : Props) :
    List String → Props → List String → List Request → SyncResult × List Request
  | [], failedFields, errors, trace =>
      (⟨true, some rid, failedFields, errors⟩, trace)
  | field :: rest, failedFields, errors, trace =>
      match lookupProp allProperties field with
      | some v =>
          if rid == "" then
            sweepFields req endpoint rid allProperties rest failedFields errors trace
          else
            let r : Request := ⟨endpoint ++ "/" ++ rid, .patch, [(field, v)]⟩
            match req r with
            | .ok _ =>
                sweepFields req endpoint rid allProperties rest failedFields errors (trace ++ [r])
            | .error e =>
                sweepFields req endpoint rid allProperties rest
                  (failedFields ++ [(field, v)])
                  (errors ++ ["Field \x27" ++ field ++ "\x27 failed: " ++ e])
                  (trace ++ [r])
      | none =>
          sweepFields req endpoint rid allProperties rest failedFields errors trace

/-- `syncWithFallback` of src/services/hubspot.ts, with its transport trace.
Tier 1: one write with the core properties.  Tier 2 on failure: retry with
only `coreFields[0]` provided its value is truthy, marking the other core
fields failed; otherwise (or if the retry fails too) the operation fails with
`failedFields` equal to the whole property map.  Tier 3: individual updates
of every non-core property. -/
def syncWithFallbackT (req : ReqOracle) (endpoint : String) (method : HttpMethod)
    (allProperties : Props) (coreFields : List String) : SyncResult × List Request :=
  let coreProperties := corePropsOf allProperties coreFields
  let coreReq : Request := ⟨endpoint, method, coreProperties⟩
  match req coreReq with
  | .ok rid =>
      sweepFields req endpoint rid allProperties
        (remainingFields allProperties coreFields) [] [] [coreReq]
  | .error e1 =>
      let errs1 := ["Core fields failed: " ++ e1]
      match coreFields with
      | [] =>
          (⟨false, none, allProperties, errs1⟩, [coreReq])
      | essentialField :: coreRest =>
          match lookupProp allProperties essentialField with
          | some v =>
              if v.truthy then
                let essReq : Request := ⟨endpoint, method, [(essentialField, v)]⟩
                match req essReq with
                | .ok rid =>
                    sweepFields req endpoint rid allProperties
                      (remainingFields allProperties coreFields)
                      (corePropsOf allProperties coreRest) errs1 [coreReq, essReq]
                | .error e2 =>
                    (⟨false, none, allProperties,
                      errs1 ++ ["Essential field failed: " ++ e2]⟩, [coreReq, essReq])
              else
                (⟨false, none, allProperties, errs1⟩, [coreReq])
          | none =>
              (⟨false, none, allProperties, errs1⟩, [coreReq])

/-- The `SyncResult` returned by `syncWithFallback`. -/
def syncWithFallback (req : ReqOracle) (endpoint : String) (method : HttpMethod)
    (allProperties : Props) (coreFields : List String) : SyncResult :=
  (syncWithFallbackT req endpoint method allProperties coreFields).1

/-- The request the sweep issues for one field, if any. -/
def sweepAttempt (endpoint rid : String) (allProperties : Props) (field : String) :
    Option Request :=
  match lookupProp allProperties field with
  | some v => if rid == "" then none else some ⟨endpoint ++ "/" ++ rid, .patch, [(field, v)]⟩
  | none => none

/-- The failed-field entry the sweep records for one field, if any. -/
def sweepFailure (req : ReqOracle) (endpoint rid : String) (allProperties : Props)
    (field : String) : Option (String × JVal) :=
  match lookupProp allProperties field with
  | some v =>
      if rid == "" then none
      else
        match req ⟨endpoint ++ "/" ++ rid, .patch, [(field, v)]⟩ with
        | .ok _ => none
        | .error _ => some (field, v)
  | none => none

/-- The error string the sweep records for one field, if any. -/
def sweepErrorMsg (req : ReqOracle) (endpoint rid : String) (allProperties : Props)
    (field : String) : Option String :=
  match lookupProp allProperties field with
  | some v =>
      if rid == "" then none
      else
        match req ⟨endpoint ++ "/" ++ rid, .patch, [(field, v)]⟩ with
        | .ok _ => none
        | .error e => some ("Field \x27" ++ field ++ "\x27 failed: " ++ e)
  | none => none

/-- Closed form of the remaining-field sweep. -/
theorem sweepFields_eq (req : ReqOracle) (ep rid : String) (props : Props) :
    ∀ (fields : List String) (ff : Props) (errs : List String) (tr : List Request),
    sweepFields req ep rid props fields ff errs tr =
      (⟨true, some rid,
        ff ++ fields.filterMap (sweepFailure req ep rid props),
        errs ++ fields.filterMap (sweepErrorMsg req ep rid props)⟩,
       tr ++ fields.filterMap (sweepAttempt ep rid props)) := by
  intro fields
  induction fields with
  | nil => intro ff errs tr; simp [sweepFields]
  | cons f rest ih =>
      intro ff errs tr
      simp only [sweepFields, List.filterMap_cons]
      cases hl : lookupProp props f with
      | none =>
          simp [sweepFailure, sweepErrorMsg, sweepAttempt, hl, ih]
      | some v =>
          by_cases hr : rid == ""
          · simp [sweepFailure, sweepErrorMsg, sweepAttempt, hl, hr, ih]
          · cases hq : req ⟨ep ++ "/" ++ rid, .patch, [(f, v)]⟩ with
            | ok r =>
                simp [sweepFailure, sweepErrorMsg, sweepAttempt, hl, hr, hq, ih]
            | error e =>
                simp [sweepFailure, sweepErrorMsg, sweepAttempt, hl, hr, hq, ih]

/-- C1: if the core batch write is rejected and the essential-only write of
`coreFields[0]` (present with a truthy value in the property map) is also
rejected, `syncWithFallback` returns `success = false`, `failedFields` equal
to the entire property map, and exactly the two failure messages, core batch
first. -/
theorem syncWithFallback_total_failure
    (req : ReqOracle) (ep : String) (m : HttpMethod) (props : Props)
    (essF : String) (coreRest : List String) (v : JVal) (e1 e2 : String)
    (hv : lookupProp props essF = some v) (hvt : v.truthy = true)
    (h1 : req ⟨ep, m, corePropsOf props (essF :: coreRest)⟩ = .error e1)
    (h2 : req ⟨ep, m, [(essF, v)]⟩ = .error e2) :
    syncWithFallback req ep m props (essF :: coreRest) =
      ⟨false, none, props,
        ["Core fields failed: " ++ e1, "Essential field failed: " ++ e2]⟩ := by
  simp [syncWithFallback, syncWithFallbackT, h1, hv, hvt, h2]

/-- C1 witness: a transport rejecting everything makes the two-error total
failure concrete. -/
theorem syncWithFallback_total_failure_witness :
    syncWithFallback (fun _ => .error "rej") "/crm/v3/objects/companies" .post
        [("name", JVal.str "Acme"), ("custom_x", JVal.str "v")] ["name"] =
      ⟨false, none, [("name", JVal.str "Acme"), ("custom_x", JVal.str "v")],
        ["Core fields failed: rej", "Essential field failed: rej"]⟩ :=
  syncWithFallback_total_failure (fun _ => .error "rej") "/crm/v3/objects/companies"
    .post [("name", JVal.str "Acme"), ("custom_x", JVal.str "v")] "name" [] (JVal.str "Acme")
    "rej" "rej" rfl (by decide) rfl rfl

/-- C10: when the core batch write fails and the value of `coreFields[0]` in
the property map is absent or falsy, the essential-only retry is skipped
entirely (the transport trace holds only the core request) and the call
returns `success = false`, `failedFields` equal to the whole property map and
exactly the single core-batch failure message. -/
theorem syncWithFallback_falsy_essential_skips_retry
    (req : ReqOracle) (ep : String) (m : HttpMethod) (props : Props)
    (essF : String) (coreRest : List String) (e1 : String)
    (hfalsy : lookupProp props essF = none ∨
      ∃ v, lookupProp props essF = some v ∧ v.truthy = false)
    (h1 : req ⟨ep, m, corePropsOf props (essF :: coreRest)⟩ = .error e1) :
    syncWithFallbackT req ep m props (essF :: coreRest) =
      (⟨false, none, props, ["Core fields failed: " ++ e1]⟩,
       [⟨ep, m, corePropsOf props (essF :: coreRest)⟩]) := by
  rcases hfalsy with hn | ⟨v, hv, hvf⟩
  · simp [syncWithFallbackT, h1, hn]
  · simp [syncWithFallbackT, h1, hv, hvf]

/-- C10 witness: the essential field `name` is present as a key but maps to
the empty string, so the retry is skipped and a single error is reported. -/
theorem syncWithFallback_falsy_essential_skips_retry_witness :
    syncWithFallbackT (fun _ => .error "rej") "/crm/v3/objects/companies" .post
        [("name", JVal.str ""), ("custom_x", JVal.str "v")] ["name"] =
      (⟨false, none, [("name", JVal.str ""), ("custom_x", JVal.str "v")],
        ["Core fields failed: rej"]⟩,
       [⟨"/crm/v3/objects/companies", .post,
         corePropsOf [("name", JVal.str ""), ("custom_x", JVal.str "v")] ["name"]⟩]) :=
  syncWithFallback_falsy_essential_skips_retry (fun _ => .error "rej")
    "/crm/v3/objects/companies" .post
    [("name", JVal.str ""), ("custom_x", JVal.str "v")] "name" [] "rej"
    (Or.inr ⟨JVal.str "", by decide, by decide⟩) rfl

/-- A key of the property map always has a defined value. -/
theorem lookupProp_isSome_of_mem (props : Props) (g : String)
    (hg : g ∈ props.map Prod.fst) : ∃ w, lookupProp props g = some w := by
  obtain ⟨x, hx, hx1⟩ := List.mem_map.mp hg
  have hs : (props.find? (fun p => p.1 == g)).isSome :=
    List.find?_isSome.mpr ⟨x, hx, by simp [hx1]⟩
  obtain ⟨q, hq⟩ := Option.isSome_iff_exists.mp hs
  exact ⟨q.2, by simp [lookupProp, hq]⟩

/-- C2: when the core batch write is rejected but the essential-only write of
`coreFields[0]` succeeds with a (non-empty) record id, `syncWithFallback`
succeeds with that id; every other core field present in the property map is
put into `failedFields`, no transport request retries a core field
individually (every non-initial request carries a single non-core field), and
every non-core property of the map is still attempted as an individual
update. -/
theorem syncWithFallback_essential_degrade
    (req : ReqOracle) (ep : String) (m : HttpMethod) (props : Props)
    (essF : String) (coreRest : List String) (v : JVal) (e1 rid : String)
    (hv : lookupProp props essF = some v) (hvt : v.truthy = true)
    (h1 : req ⟨ep, m, corePropsOf props (essF :: coreRest)⟩ = .error e1)
    (h2 : req ⟨ep, m, [(essF, v)]⟩ = .ok rid)
    (hrid : rid ≠ "") :
    (syncWithFallbackT req ep m props (essF :: coreRest)).1.success = true ∧
    (syncWithFallbackT req ep m props (essF :: coreRest)).1.id = some rid ∧
    (∀ f w, f ∈ coreRest → lookupProp props f = some w →
      (f, w) ∈ (syncWithFallbackT req ep m props (essF :: coreRest)).1.failedFields) ∧
    (∀ r ∈ (syncWithFallbackT req ep m props (essF :: coreRest)).2,
      r = ⟨ep, m, corePropsOf props (essF :: coreRest)⟩ ∨ r = ⟨ep, m, [(essF, v)]⟩ ∨
      ∃ g w, g ∉ (essF :: coreRest) ∧ r = ⟨ep ++ "/" ++ rid, .patch, [(g, w)]⟩) ∧
    (∀ g, g ∈ props.map Prod.fst → g ∉ (essF :: coreRest) →
      ∃ w, lookupProp props g = some w ∧
        (⟨ep ++ "/" ++ rid, .patch, [(g, w)]⟩ : Request) ∈
          (syncWithFallbackT req ep m props (essF :: coreRest)).2) := by
  have hmain : syncWithFallbackT req ep m props (essF :: coreRest) =
      (⟨true, some rid,
        corePropsOf props coreRest ++
          (remainingFields props (essF :: coreRest)).filterMap (sweepFailure req ep rid props),
        ["Core fields failed: " ++ e1] ++
          (remainingFields props (essF :: coreRest)).filterMap (sweepErrorMsg req ep rid props)⟩,
       [⟨ep, m, corePropsOf props (essF :: coreRest)⟩, ⟨ep, m, [(essF, v)]⟩] ++
          (remainingFields props (essF :: coreRest)).filterMap (sweepAttempt ep rid props)) := by
    simp [syncWithFallbackT, h1, hv, hvt, h2, sweepFields_eq]
  rw [hmain]
  refine ⟨rfl, rfl, ?_, ?_, ?_⟩
  · intro f w hf hw
    apply List.mem_append_left
    exact List.mem_filterMap.mpr ⟨f, hf, by simp [hw]⟩
  · intro r hr
    simp only [List.mem_append, List.mem_cons, List.not_mem_nil, or_false] at hr
    rcases hr with (h | h) | h
    · exact Or.inl h
    · exact Or.inr (Or.inl h)
    · refine Or.inr (Or.inr ?_)
      obtain ⟨g, hg, hga⟩ := List.mem_filterMap.mp h
      have hgnc : g ∉ (essF :: coreRest) := by
        have := (List.mem_filter.mp hg).2
        simpa using this
      cases hl : lookupProp props g with
      | none => rw [sweepAttempt, hl] at hga; simp at hga
      | some w =>
          rw [sweepAttempt, hl] at hga
          have hrb : (rid == "") = false := by
            simpa using hrid
          rw [hrb] at hga
          simp only [Bool.false_eq_true, if_false, Option.some.injEq] at hga
          exact ⟨g, w, hgnc, hga.symm⟩
  · intro g hg hgnc
    obtain ⟨w, hw⟩ := lookupProp_isSome_of_mem props g hg
    refine ⟨w, hw, ?_⟩
    apply List.mem_append_right
    refine List.mem_filterMap.mpr ⟨g, ?_, ?_⟩
    · refine List.mem_filter.mpr ⟨hg, ?_⟩
      simpa using hgnc
    · have hrb : (rid == "") = false := by simpa using hrid
      simp [sweepAttempt, hw, hrb]

/-- C2 witness: the transport rejects the 3-field core batch, accepts the
single-field essential write (id 9) and every later single-field update;
`industry` lands in `failedFields` without an individual retry. -/
theorem syncWithFallback_essential_degrade_witness :
    (syncWithFallbackT
        (fun r => if r.properties.length == 1 then .ok "9" else .error "batch")
        "/crm/v3/objects/companies" .post
        [("name", JVal.str "Acme"), ("industry", JVal.str "Oil & Gas"),
         ("state", JVal.str "Oklahoma"), ("custom_x", JVal.str "v")]
        ["name", "industry", "state"]).1.success = true ∧
    (syncWithFallbackT
        (fun r => if r.properties.length == 1 then .ok "9" else .error "batch")
        "/crm/v3/objects/companies" .post
        [("name", JVal.str "Acme"), ("industry", JVal.str "Oil & Gas"),
         ("state", JVal.str "Oklahoma"), ("custom_x", JVal.str "v")]
        ["name", "industry", "state"]).1.id = some "9" ∧
    ("industry", JVal.str "Oil & Gas") ∈
      (syncWithFallbackT
        (fun r => if r.properties.length == 1 then .ok "9" else .error "batch")
        "/crm/v3/objects/companies" .post
        [("name", JVal.str "Acme"), ("industry", JVal.str "Oil & Gas"),
         ("state", JVal.str "Oklahoma"), ("custom_x", JVal.str "v")]
        ["name", "industry", "state"]).1.failedFields := by
  have h := syncWithFallback_essential_degrade
      (fun r => if r.properties.length == 1 then .ok "9" else .error "batch")
      "/crm/v3/objects/companies" .post
      [("name", JVal.str "Acme"), ("industry", JVal.str "Oil & Gas"),
       ("state", JVal.str "Oklahoma"), ("custom_x", JVal.str "v")]
      "name" ["industry", "state"] (JVal.str "Acme") "batch" "9"
      rfl (by decide) rfl rfl (by decide)
  exact ⟨h.1, h.2.1, h.2.2.1 "industry" (JVal.str "Oil & Gas") (by decide) rfl⟩

/-- String append acts as append on the underlying character lists. -/
theorem data_append_eq (a b : String) : (a ++ b).data = a.data ++ b.data := by
  cases a; cases b; rfl

/-- A non-empty record id makes the per-field update endpoint differ from the
base endpoint. -/
theorem ep_ne_append_rid (ep rid : String) (hrid : rid ≠ "") :
    ep ++ "/" ++ rid ≠ ep := by
  intro h
  have hd := congrArg String.data h
  rw [data_append_eq, data_append_eq] at hd
  have hl := congrArg List.length hd
  rw [List.length_append, List.length_append] at hl
  have hslash : ("/" : String).data.length = 1 := rfl
  have hr : rid.data ≠ [] := by
    intro hz
    apply hrid
    have he : rid = String.mk rid.data := rfl
    rw [he, hz]
  have hrl : rid.data.length ≠ 0 := fun hz => hr (List.length_eq_zero.mp hz)
  omega

/-- C3: whenever a record id has been obtained — by the core-batch write or
by the essential-only fallback — the sweep issues exactly one individual
update request per key of the property map not named in the core fields (in
key order, regardless of individual outcomes): the transport trace is the
initial batch requests, all against the base endpoint, followed by exactly
one per-field update per remaining key.  Each rejected field is added to
`failedFields` with its original value together with an error string naming
it, and the call returns `success = true` with the record id. -/
theorem syncWithFallback_sweep_per_field
    (req : ReqOracle) (ep : String) (m : HttpMethod) (props : Props)
    (core : List String) (rid : String)
    (hobt : req ⟨ep, m, corePropsOf props core⟩ = .ok rid ∨
      (∃ essF coreRest v e1, core = essF :: coreRest ∧
        lookupProp props essF = some v ∧ v.truthy = true ∧
        req ⟨ep, m, corePropsOf props core⟩ = .error e1 ∧
        req ⟨ep, m, [(essF, v)]⟩ = .ok rid))
    (hrid : rid ≠ "")
    (hnodup : (props.map Prod.fst).Nodup) :
    (syncWithFallbackT req ep m props core).1.success = true ∧
    (syncWithFallbackT req ep m props core).1.id = some rid ∧
    (∃ pre, (syncWithFallbackT req ep m props core).2 =
        pre ++ (remainingFields props core).filterMap (sweepAttempt ep rid props) ∧
      ∀ r ∈ pre, r.endpoint = ep) ∧
    ep ++ "/" ++ rid ≠ ep ∧
    (∀ g ∈ remainingFields props core, ∃ w, lookupProp props g = some w ∧
      sweepAttempt ep rid props g = some ⟨ep ++ "/" ++ rid, .patch, [(g, w)]⟩) ∧
    (remainingFields props core).Nodup ∧
    (∀ g w e, g ∈ remainingFields props core → lookupProp props g = some w →
      req ⟨ep ++ "/" ++ rid, .patch, [(g, w)]⟩ = .error e →
      (g, w) ∈ (syncWithFallbackT req ep m props core).1.failedFields ∧
        ("Field \x27" ++ g ++ "\x27 failed: " ++ e) ∈
          (syncWithFallbackT req ep m props core).1.errors) := by
  have hrb : (rid == "") = false := by simpa using hrid
  have hatt : ∀ g ∈ remainingFields props core, ∃ w, lookupProp props g = some w ∧
      sweepAttempt ep rid props g = some ⟨ep ++ "/" ++ rid, .patch, [(g, w)]⟩ := by
    intro g hg
    obtain ⟨w, hw⟩ := lookupProp_isSome_of_mem props g (List.mem_filter.mp hg).1
    exact ⟨w, hw, by simp [sweepAttempt, hw, hrb]⟩
  rcases hobt with hok | ⟨essF, coreRest, v, e1, hcore, hv, hvt, h1, h2⟩
  · have hmain : syncWithFallbackT req ep m props core =
        (⟨true, some rid,
          (remainingFields props core).filterMap (sweepFailure req ep rid props),
          (remainingFields props core).filterMap (sweepErrorMsg req ep rid props)⟩,
         ⟨ep, m, corePropsOf props core⟩ ::
           (remainingFields props core).filterMap (sweepAttempt ep rid props)) := by
      simp [syncWithFallbackT, hok, sweepFields_eq]
    rw [hmain]
    refine ⟨rfl, rfl, ⟨[⟨ep, m, corePropsOf props core⟩], rfl, ?_⟩,
      ep_ne_append_rid ep rid hrid, hatt, hnodup.filter _, ?_⟩
    · intro r hr
      simp only [List.mem_singleton] at hr
      subst hr
      rfl
    · intro g w e hg hw he
      constructor
      · exact List.mem_filterMap.mpr ⟨g, hg, by simp [sweepFailure, hw, hrb, he]⟩
      · exact List.mem_filterMap.mpr ⟨g, hg, by simp [sweepErrorMsg, hw, hrb, he]⟩
  · subst hcore
    have hmain : syncWithFallbackT req ep m props (essF :: coreRest) =
        (⟨true, some rid,
          corePropsOf props coreRest ++
            (remainingFields props (essF :: coreRest)).filterMap
              (sweepFailure req ep rid props),
          ["Core fields failed: " ++ e1] ++
            (remainingFields props (essF :: coreRest)).filterMap
              (sweepErrorMsg req ep rid props)⟩,
         [⟨ep, m, corePropsOf props (essF :: coreRest)⟩, ⟨ep, m, [(essF, v)]⟩] ++
            (remainingFields props (essF :: coreRest)).filterMap
              (sweepAttempt ep rid props)) := by
      simp [syncWithFallbackT, h1, hv, hvt, h2, sweepFields_eq]
    rw [hmain]
    refine ⟨rfl, rfl,
      ⟨[⟨ep, m, corePropsOf props (essF :: coreRest)⟩, ⟨ep, m, [(essF, v)]⟩], rfl, ?_⟩,
      ep_ne_append_rid ep rid hrid, hatt, hnodup.filter _, ?_⟩
    · intro r hr
      simp only [List.mem_cons, List.not_mem_nil, or_false] at hr
      rcases hr with h | h <;> subst h <;> rfl
    · intro g w e hg hw he
      constructor
      · exact List.mem_append_right _
          (List.mem_filterMap.mpr ⟨g, hg, by simp [sweepFailure, hw, hrb, he]⟩)
      · exact List.mem_append_right _
          (List.mem_filterMap.mpr ⟨g, hg, by simp [sweepErrorMsg, hw, hrb, he]⟩)

/-- C3 witness, exercising the essential-only path to the record id: the
two-field core batch is rejected, the essential write returns id 9, and the
sweep still attempts the non-core `custom_x`, which is rejected and recorded
with its error string while the call succeeds. -/
theorem syncWithFallback_sweep_per_field_witness :
    (syncWithFallbackT
        (fun r => match r.method with
          | .post => if r.properties.length == 1 then .ok "9" else .error "batch"
          | _ => .error "bad property")
        "/crm/v3/objects/companies" .post
        [("name", JVal.str "Acme"), ("industry", JVal.str "Oil & Gas"),
         ("custom_x", JVal.str "v")]
        ["name", "industry"]).1.success = true ∧
    (syncWithFallbackT
        (fun r => match r.method with
          | .post => if r.properties.length == 1 then .ok "9" else .error "batch"
          | _ => .error "bad property")
        "/crm/v3/objects/companies" .post
        [("name", JVal.str "Acme"), ("industry", JVal.str "Oil & Gas"),
         ("custom_x", JVal.str "v")]
        ["name", "industry"]).1.id = some "9" ∧
    ("custom_x", JVal.str "v") ∈
      (syncWithFallbackT
        (fun r => match r.method with
          | .post => if r.properties.length == 1 then .ok "9" else .error "batch"
          | _ => .error "bad property")
        "/crm/v3/objects/companies" .post
        [("name", JVal.str "Acme"), ("industry", JVal.str "Oil & Gas"),
         ("custom_x", JVal.str "v")]
        ["name", "industry"]).1.failedFields ∧
    ("Field \x27custom_x\x27 failed: bad property") ∈
      (syncWithFallbackT
        (fun r => match r.method with
          | .post => if r.properties.length == 1 then .ok "9" else .error "batch"
          | _ => .error "bad property")
        "/crm/v3/objects/companies" .post
        [("name", JVal.str "Acme"), ("industry", JVal.str "Oil & Gas"),
         ("custom_x", JVal.str "v")]
        ["name", "industry"]).1.errors := by
  have h := syncWithFallback_sweep_per_field
      (fun r => match r.method with
        | .post => if r.properties.length == 1 then .ok "9" else .error "batch"
        | _ => .error "bad property")
      "/crm/v3/objects/companies" .post
      [("name", JVal.str "Acme"), ("industry", JVal.str "Oil & Gas"),
       ("custom_x", JVal.str "v")]
      ["name", "industry"] "9"
      (Or.inr ⟨"name", ["industry"], JVal.str "Acme", "batch",
        rfl, rfl, by decide, rfl, rfl⟩)
      (by decide) (by decide)
  have hfail := h.2.2.2.2.2.2 "custom_x" (JVal.str "v") "bad property"
      (by decide) rfl rfl
  exact ⟨h.1, h.2.1, hfail.1, hfail.2⟩

/-- JavaScript word character, the regex class backslash-w. -/
def isWordChar (c : Char) : Bool := c.isAlphanum || c == '_'

/-- Uppercase every word character that starts a word (regex `\b\w` with an
uppercasing replacer); `prevWord` records whether the previous character was a
word character. -/
def upWordStarts (prevWord : Bool) : List Char → List Char
  | [] => []
  | c :: cs =>
      (if isWordChar c && !prevWord then c.toUpper else c) :: upWordStarts (isWordChar c) cs

/-- `key.replace(/_/g, ' ').replace(/\b\w/g, l => l.toUpperCase())`: snake_case
to Title Case, as used for note bullets. -/
def titleCaseKey (key : String) : String :=
  String.mk (upWordStarts false (key.data.map (fun c => if c == '_' then ' ' else c)))

/-- `createFailedFieldsNote` of src/services/hubspot.ts.  `today` stands for
`new Date().toLocaleDateString()`. -/
def createFailedFieldsNote (failedFields : Props) (recordType : String)
    (today : String) : String :=
  if failedFields.isEmpty then ""
  else
    String.intercalate "\n"
      (["Additional " ++ recordType ++ " Data (Auto-synced):"] ++
       failedFields.map (fun p => "• " ++ titleCaseKey p.1 ++ ": " ++ p.2.display) ++
       ["", "Synced on: " ++ today])

/-- Mirrors `interface HubSpotCompany`. -/
structure HubSpotCompany where
  name : String
  industry : String
  state : String
  domain : Option String := none
  numberofemployees : Option String := none
  city : Option String := none
  phone : Option String := none
  website : Option String := none
  description : Option String := none
  primary_formation : Option String := none
  drilling_activity_level : Option String := none
  geological_staff_size : Option String := none
  recent_permits_count : Option String := none
  last_permit_date : Option String := none
  status : Option String := none
deriving DecidableEq, Repr

/-- An optional string under JavaScript truthiness: `some s` only when the
value is present and non-empty. -/
def strTruthy : Option String → Option String
  | some s => if s == "" then none else some s
  | none => none

/-- `if (x) properties.key = x` for an optional string property. -/
def optProp (key : String) (v : Option String) : Props :=
  match strTruthy v with
  | some s => [(key, JVal.str s)]
  | none => []

/-- `if (x) lines.push(pre + x)` for an optional string. -/
def optLine (pre : String) (v : Option String) : List String :=
  match strTruthy v with
  | some s => [pre ++ s]
  | none => []

/-- Truthiness of an optional string as a Bool. -/
def optStrTruthy : Option String → Bool
  | some s => !(s == "")
  | none => false

/-- `createSafeCompanyProperties` of src/services/hubspot.ts: the standard
properties plus a description aggregating the custom geological fields. -/
def createSafeCompanyProperties (c : HubSpotCompany) : Props :=
  let standard : Props :=
    [("name", JVal.str c.name), ("industry", JVal.str c.industry),
     ("state", JVal.str c.state)] ++
    optProp "domain" c.domain ++ optProp "numberofemployees" c.numberofemployees ++
    optProp "city" c.city ++ optProp "phone" c.phone ++ optProp "website" c.website
  let customData :=
    optLine "Primary Formation: " c.primary_formation ++
    optLine "Drilling Activity: " c.drilling_activity_level ++
    optLine "Geological Staff: " c.geological_staff_size ++
    optLine "Recent Permits: " c.recent_permits_count ++
    optLine "Last Permit Date: " c.last_permit_date ++
    optLine "Status: " c.status
  if customData.isEmpty then
    match strTruthy c.description with
    | some d => standard ++ [("description", JVal.str d)]
    | none => standard
  else
    let existingDescription := (strTruthy c.description).getD ""
    standard ++
      [("description", JVal.str
        (existingDescription ++ (if existingDescription == "" then "" else "\n\n") ++
         "Geological Data:\n" ++ String.intercalate "\n" customData))]

/-- The `createNote` collaborator: note body, attached object type, attached
object id; returns the note id or the thrown error message. -/
abbrev NoteOracle := String → String → String → Except String String

/-- `createCompanyWithFallback` of src/services/hubspot.ts: the fallback sync
with core fields name/industry/state, then a reconciliation note when fields
failed (note errors appended, non-fatal). -/
def createCompanyWithFallback (req : ReqOracle) (noteOp : NoteOracle) (today : String)
    (companyData : HubSpotCompany) : SyncResult :=
  let coreFields := ["name", "industry", "state"]
  let allProperties := createSafeCompanyProperties companyData
  let result := syncWithFallback req "/crm/v3/objects/companies" .post allProperties coreFields
  if result.success && optStrTruthy result.id && !result.failedFields.isEmpty then
    match noteOp (createFailedFieldsNote result.failedFields "Company" today) "company"
        (result.id.getD "") with
    | .ok _ => result
    | .error e => { result with errors := result.errors ++ ["Failed to create note: " ++ e] }
  else result

/-- Mirrors the `location` object of a permit record; `sect` stands for the
source field `section`, which is a reserved word here. -/
structure PermitLocation where
  county : String := ""
  state : String := ""
  sect : String := ""
  township : String := ""
  range : String := ""
deriving DecidableEq, Repr

/-- The permit fields read by the deal flow (`permitData` is duck-typed `any`
in the source; optional fields model absent properties). -/
structure Permit where
  operatorName : String
  apiNumber : Option String := none
  wellType : Option String := none
  location : Option PermitLocation := none
  filingDate : Option String := none
  formation : Option String := none
  depth : Option Int := none
  status : Option String := none
deriving DecidableEq, Repr

/-- `getPermitUrl` of src/services/hubspot.ts. -/
def getPermitUrl (p : Permit) : String :=
  match p.location, strTruthy p.apiNumber with
  | some loc, some api =>
      if loc.state == "Oklahoma" then
        "https://ogwellbore.occ.ok.gov/WellBrowse.aspx?APINumber=" ++ api
      else if loc.state == "Kansas" then
        "https://www.kgs.ku.edu/Magellan/Qualified/index.html?api=" ++ api
      else ""
  | _, _ => ""

/-- `createPermitNote` of src/services/hubspot.ts: the unconditional permit
detail note, with rejected fields appended as a secondary section. -/
def createPermitNote (p : Permit) (failedFields : Props) (today : String) : String :=
  let lines := ["Drilling Permit Details:"]
  let lines := lines ++ (if p.operatorName == "" then [] else ["Operator: " ++ p.operatorName])
  let lines := lines ++ optLine "API Number: " p.apiNumber
  let lines := lines ++ optLine "Well Type: " p.wellType
  let lines := lines ++ (match p.location with
    | some loc =>
        if loc.county != "" && loc.state != "" then
          ["County: " ++ loc.county ++ ", " ++ loc.state]
        else []
    | none => [])
  let lines := lines ++ optLine "Permit Date: " p.filingDate
  let lines := lines ++ optLine "Formation: " p.formation
  let lines := lines ++ (match p.depth with
    | some d => if d == 0 then [] else ["Depth: " ++ toString d ++ " ft"]
    | none => [])
  let lines := lines ++ optLine "Status: " p.status
  let lines := lines ++ (match p.location with
    | some loc =>
        if loc.sect != "" || loc.township != "" || loc.range != "" then
          let parts := (if loc.sect != "" then ["Sec " ++ loc.sect] else []) ++
                       (if loc.township != "" then [loc.township] else []) ++
                       (if loc.range != "" then [loc.range] else [])
          if parts.isEmpty then [] else ["Location: " ++ String.intercalate "-" parts]
        else []
    | none => [])
  let permitUrl := getPermitUrl p
  let lines := lines ++ (if permitUrl == "" then [] else ["Source: " ++ permitUrl])
  let lines := lines ++ (if failedFields.isEmpty then [] else
    ["", "Additional Data (Field Restrictions):"] ++
      failedFields.map (fun q => "• " ++ titleCaseKey q.1 ++ ": " ++ q.2.display))
  let lines := lines ++ ["", "Synced on: " ++ today]
  String.intercalate "\n" lines

/-- The deal properties assembled by `createDealFromPermitWithFallback`:
name from operator and formation (or "Drilling"), fixed stage and pipeline,
and the 90-day close date (`closedate` stands for the computed ISO string). -/
def dealPropsOf (closedate : String) (permitData : Permit) : Props :=
  let dealName := permitData.operatorName ++ " - " ++
    ((strTruthy permitData.formation).getD "Drilling") ++ " Opportunity"
  [("dealname", JVal.str dealName), ("dealstage", JVal.str "appointmentscheduled"),
   ("pipeline", JVal.str "default"), ("closedate", JVal.str closedate)]

/-- `createDealFromPermitWithFallback` of src/services/hubspot.ts: create the
deal (fatal on failure), then best-effort note, then best-effort company
lookup-or-create and association; warnings are returned in `errors`. -/
def createDealFromPermitWithFallback (req : ReqOracle) (noteOp : NoteOracle)
    (searchCompany : String → Except String (List String))
    (assocDealCompany : String → String → Except String String)
    (closedate today : String) (permitData : Permit) : SyncResult :=
  match req ⟨"/crm/v3/objects/deals", .post, dealPropsOf closedate permitData⟩ with
  | .error e => ⟨false, none, [], ["Failed to create deal: " ++ e]⟩
  | .ok dealId =>
      let noteWarnings :=
        match noteOp (createPermitNote permitData [] today) "deal" dealId with
        | .ok _ => []
        | .error e => ["Deal created but note creation failed: " ++ e]
      let assocWarnings :=
        match searchCompany permitData.operatorName with
        | .error e => ["Deal created but company association failed: " ++ e]
        | .ok (cid :: _) =>
            match assocDealCompany dealId cid with
            | .ok _ => []
            | .error e => ["Deal created but company association failed: " ++ e]
        | .ok [] =>
            let companyData : HubSpotCompany :=
              { name := permitData.operatorName, industry := "Oil & Gas",
                state := (match permitData.location with
                  | some loc => if loc.state == "" then "Unknown" else loc.state
                  | none => "Unknown"),
                description := some "Oil & Gas operator with recent drilling permits" }
            let companyResult := createCompanyWithFallback req noteOp today companyData
            if companyResult.success && optStrTruthy companyResult.id then
              match assocDealCompany dealId (companyResult.id.getD "") with
              | .ok _ => []
              | .error e => ["Deal created but company association failed: " ++ e]
            else []
      ⟨true, some dealId, [], noteWarnings ++ assocWarnings⟩

/-- C4: every outcome of the sync engine satisfies the invariant that
`success = true` implies the record id is present — both for the raw
`syncWithFallback` primitive and for `createDealFromPermitWithFallback`
built on the same transport. -/
theorem sync_outcome_success_has_id :
    (∀ (req : ReqOracle) (ep : String) (m : HttpMethod) (props : Props)
        (core : List String),
      (syncWithFallback req ep m props core).success = true →
      (syncWithFallback req ep m props core).id.isSome = true) ∧
    (∀ (req : ReqOracle) (noteOp : NoteOracle)
        (searchCompany : String → Except String (List String))
        (assocDealCompany : String → String → Except String String)
        (closedate today : String) (permitData : Permit),
      (createDealFromPermitWithFallback req noteOp searchCompany assocDealCompany
          closedate today permitData).success = true →
      (createDealFromPermitWithFallback req noteOp searchCompany assocDealCompany
          closedate today permitData).id.isSome = true) := by
  constructor
  · intro req ep m props core h
    cases hq : req ⟨ep, m, corePropsOf props core⟩ with
    | ok rid => simp [syncWithFallback, syncWithFallbackT, hq, sweepFields_eq]
    | error e1 =>
        cases core with
        | nil => simp [syncWithFallback, syncWithFallbackT, hq] at h
        | cons essF coreRest =>
            cases hv : lookupProp props essF with
            | none => simp [syncWithFallback, syncWithFallbackT, hq, hv] at h
            | some v =>
                by_cases hvt : v.truthy = true
                · cases he : req ⟨ep, m, [(essF, v)]⟩ with
                  | ok rid =>
                      simp [syncWithFallback, syncWithFallbackT, hq, hv, hvt, he,
                        sweepFields_eq]
                  | error e2 =>
                      simp [syncWithFallback, syncWithFallbackT, hq, hv, hvt, he] at h
                · have hvf : v.truthy = false := by
                    simpa using hvt
                  simp [syncWithFallback, syncWithFallbackT, hq, hv, hvf] at h
  · intro req noteOp searchCompany assocDealCompany closedate today permitData h
    cases hr : req ⟨"/crm/v3/objects/deals", .post, dealPropsOf closedate permitData⟩ with
    | ok dealId => simp [createDealFromPermitWithFallback, hr]
    | error e => simp [createDealFromPermitWithFallback, hr] at h

/-- C4 witness: with a transport that accepts everything, both a plain
fallback sync and a permit-to-deal creation succeed and carry an id. -/
theorem sync_outcome_success_has_id_witness :
    (syncWithFallback (fun _ => .ok "1") "/crm/v3/objects/companies" .post
      [("name", JVal.str "Acme")] ["name"]).id.isSome = true ∧
    (createDealFromPermitWithFallback (fun _ => .ok "7") (fun _ _ _ => .ok "n")
      (fun _ => .ok ["2"]) (fun _ _ => .ok "a") "2026-01-01" "1/1/2026"
      { operatorName := "Op" }).id.isSome = true :=
  ⟨sync_outcome_success_has_id.1 (fun _ => .ok "1") "/crm/v3/objects/companies" .post
      [("name", JVal.str "Acme")] ["name"] rfl,
   sync_outcome_success_has_id.2 (fun _ => .ok "7") (fun _ _ _ => .ok "n")
      (fun _ => .ok ["2"]) (fun _ _ => .ok "a") "2026-01-01" "1/1/2026"
      { operatorName := "Op" } rfl⟩

/-- Mirrors `interface HubSpotContact`. -/
structure HubSpotContact where
  email : String
  firstname : String
  lastname : String
  jobtitle : String
  phone : Option String := none
  company : String
  hs_lead_status : Option String := none
  geological_expertise : Option String := none
  years_experience : Option String := none
  education : Option String := none
  last_contact_date : Option String := none
deriving DecidableEq, Repr

/-- `createSafeContactProperties` of src/services/hubspot.ts. -/
def createSafeContactProperties (c : HubSpotContact) : Props :=
  let standard : Props :=
    [("email", JVal.str c.email), ("firstname", JVal.str c.firstname),
     ("lastname", JVal.str c.lastname), ("jobtitle", JVal.str c.jobtitle),
     ("company", JVal.str c.company)] ++
    optProp "phone" c.phone ++ optProp "hs_lead_status" c.hs_lead_status
  let customData :=
    optLine "Expertise: " c.geological_expertise ++
    (match strTruthy c.years_experience with
     | some s => ["Experience: " ++ s ++ " years"]
     | none => []) ++
    optLine "Education: " c.education ++
    optLine "Last Contact: " c.last_contact_date
  if customData.isEmpty then standard
  else standard ++ [("notes_last_contacted", JVal.str (String.intercalate "; " customData))]

/-- `createContactWithFallback` of src/services/hubspot.ts. -/
def createContactWithFallback (req : ReqOracle) (noteOp : NoteOracle) (today : String)
    (contactData : HubSpotContact) : SyncResult :=
  let coreFields := ["email", "firstname", "lastname"]
  let allProperties := createSafeContactProperties contactData
  let result := syncWithFallback req "/crm/v3/objects/contacts" .post allProperties coreFields
  if result.success && optStrTruthy result.id && !result.failedFields.isEmpty then
    match noteOp (createFailedFieldsNote result.failedFields "Contact" today) "contact"
        (result.id.getD "") with
    | .ok _ => result
    | .error e => { result with errors := result.errors ++ ["Failed to create note: " ++ e] }
  else result

/-- `updateCompanyWithFallback` of src/services/hubspot.ts: fallback sync with
the single core field `name`, the known id substituted into the result, then
the reconciliation note. -/
def updateCompanyWithFallback (req : ReqOracle) (noteOp : NoteOracle) (today : String)
    (hubspotId : String) (companyData : HubSpotCompany) : SyncResult :=
  let coreFields := ["name"]
  let allProperties := createSafeCompanyProperties companyData
  let result0 := syncWithFallback req "/crm/v3/objects/companies" .patch allProperties coreFields
  let result : SyncResult := { result0 with id := some hubspotId }
  if result.success && !result.failedFields.isEmpty then
    match noteOp (createFailedFieldsNote result.failedFields "Company Update" today) "company"
        hubspotId with
    | .ok _ => result
    | .error e => { result with errors := result.errors ++ ["Failed to create note: " ++ e] }
  else result

/-- The contact object carried by a lead (src/types/lead.ts). -/
structure LeadContact where
  name : String
  title : String
  email : Option String := none
  phone : Option String := none
deriving DecidableEq, Repr

/-- The lead fields read by the sync orchestration (src/types/lead.ts;
fields not read by the sync path are omitted). -/
structure Lead where
  id : String
  companyName : String
  website : Option String := none
  industry : String := ""
  location : String := ""
  size : Option String := none
  description : Option String := none
  contact : Option LeadContact := none
  foundAt : String := ""
deriving DecidableEq, Repr

/-- `s || d` for a required string under JavaScript truthiness. -/
def strOr (s d : String) : String := if s == "" then d else s

/-- The aggregate summary returned by `syncLeadToHubSpot`. -/
structure SyncSummary where
  success : Bool
  warnings : List String
  errors : List String
  hubspotId : Option String := none
deriving DecidableEq, Repr

/-- The company property set built from a lead, identical in the update and
create branches of `syncLeadToHubSpot`. -/
def leadCompanyData (lead : Lead) : HubSpotCompany :=
  { name := lead.companyName,
    industry := strOr lead.industry "Oil & Gas",
    state := strOr lead.location "Unknown",
    domain := lead.website,
    numberofemployees := some ((strTruthy lead.size).getD "Unknown"),
    description := lead.description }

/-- The contact property set built from a lead contact with email `em`:
the name split on spaces into first and last name. -/
def leadContactData (lead : Lead) (c : LeadContact) (em : String) : HubSpotContact :=
  let nameParts := c.name.splitOn " "
  { email := em,
    firstname := nameParts.headD "",
    lastname := String.intercalate " " nameParts.tail,
    jobtitle := strOr c.title "Unknown",
    company := lead.companyName,
    hs_lead_status := some "NEW" }

/-- The provenance note `syncLeadToHubSpot` attaches to the company
(`dateFmt` stands for `d => new Date(d).toLocaleDateString()`). -/
def leadNoteContent (lead : Lead) (dateFmt : String → String) : String :=
  "Lead sourced from LinkedIn search on " ++ dateFmt lead.foundAt ++ ".\nIndustry: " ++
    strOr lead.industry "Oil & Gas" ++ "\nLocation: " ++ strOr lead.location "Unknown" ++
    "\n" ++ (match strTruthy lead.description with
             | some d => "Description: " ++ d
             | none => "") ++
    "\n" ++ (match strTruthy lead.website with
             | some w => "Website: " ++ w
             | none => "")

/-- `syncLeadToHubSpot` of the HubSpot store (src/unnamed/part_007): find the
lead, update or create the company, best-effort contact creation and
association (association failure degraded to a warning), best-effort
provenance note.  The sync-status store logging (`addSyncError`,
`addSyncWarning`) and the `markAsSynced` bookkeeping have no effect on the
returned summary and are not modelled. -/
def syncLeadToHubSpot (req : ReqOracle) (noteOp : NoteOracle)
    (searchCompany : String → Except String (List String))
    (searchContact : String → Except String (List String))
    (assocContactCompany : String → String → Except String String)
    (dateFmt : String → String) (today : String)
    (leads : List Lead) (leadId : String) : SyncSummary :=
  match leads.find? (fun l => l.id == leadId) with
  | none => ⟨false, [], ["Lead " ++ leadId ++ " not found"], none⟩
  | some lead =>
      match searchCompany lead.companyName with
      | .error e => ⟨false, [], [e], none⟩
      | .ok searchResults =>
          let (companyId, companyResult) : Option String × SyncResult :=
            match searchResults with
            | cid :: _ =>
                (some cid, updateCompanyWithFallback req noteOp today cid (leadCompanyData lead))
            | [] =>
                let r := createCompanyWithFallback req noteOp today (leadCompanyData lead)
                (r.id, r)
          let companyWarnings :=
            if !companyResult.failedFields.isEmpty then
              ["Some company data stored as notes due to field restrictions"]
            else []
          let (contactErrors, contactWarnings) : List String × List String :=
            match lead.contact with
            | some c =>
                match strTruthy c.email with
                | some em =>
                    (match searchContact em with
                     | .error e => ([], ["Company synced but contact creation failed: " ++ e])
                     | .ok (_ :: _) => ([], [])
                     | .ok [] =>
                         let contactResult :=
                           createContactWithFallback req noteOp today (leadContactData lead c em)
                         let assocWarnings :=
                           if contactResult.success && optStrTruthy contactResult.id then
                             match assocContactCompany (contactResult.id.getD "")
                                 (companyId.getD "") with
                             | .ok _ => []
                             | .error e => ["Contact created but association failed: " ++ e]
                           else []
                         let fieldWarnings :=
                           if !contactResult.failedFields.isEmpty then
                             ["Some contact data stored as notes due to field restrictions"]
                           else []
                         (contactResult.errors, assocWarnings ++ fieldWarnings))
                | none => ([], [])
            | none => ([], [])
          let noteWarnings :=
            match noteOp (leadNoteContent lead dateFmt) "company" (companyId.getD "") with
            | .ok _ => []
            | .error e => ["Lead synced but note creation failed: " ++ e]
          ⟨companyResult.success,
           companyWarnings ++ contactWarnings ++ noteWarnings,
           companyResult.errors ++ contactErrors,
           companyId⟩

/-- Appending on the right preserves the head character. -/
theorem append_head? (a b : String) (c : Char) (h : a.data.head? = some c) :
    (a ++ b).data.head? = some c := by
  rw [data_append_eq]
  cases ad : a.data with
  | nil => rw [ad] at h; simp at h
  | cons x xs =>
      rw [ad] at h
      simp only [List.head?_cons, Option.some.injEq] at h
      simp [h]

/-- A string is distinct from an append whose head character differs. -/
theorem ne_append_right (a b e : String) (c d : Char)
    (ha : a.data.head? = some c) (hb : b.data.head? = some d) (hcd : c ≠ d) :
    a ≠ b ++ e := by
  intro h
  rw [h, append_head? b e d hb] at ha
  exact hcd (Option.some.inj ha).symm

/-- Two appends with different head characters are distinct. -/
theorem append_ne_append (a b e f : String) (c d : Char)
    (ha : a.data.head? = some c) (hb : b.data.head? = some d) (hcd : c ≠ d) :
    a ++ e ≠ b ++ f := by
  intro h
  have h1 := append_head? a e c ha
  rw [h, append_head? b f d hb] at h1
  exact hcd (Option.some.inj h1).symm

/-- C5: when the lead is found and the primary company write succeeds —
either updating an existing company `cid` found by the name search, or
creating a new one when the search comes back empty — and the
contact-to-company association call throws, `syncLeadToHubSpot` still
returns `success = true` with the company id as `hubspotId`; the association
failure appears exactly once among the warnings and contributes nothing to
the errors, which are exactly the company and contact sync errors. -/
theorem syncLead_assoc_failure_isolated (req : ReqOracle) (noteOp : NoteOracle)
    (searchCompany searchContact : String → Except String (List String))
    (assocContactCompany : String → String → Except String String)
    (dateFmt : String → String) (today : String)
    (leads : List Lead) (leadId : String) (lead : Lead)
    (companyId : Option String) (companyResult : SyncResult)
    (c : LeadContact) (em msg : String)
    (hfind : leads.find? (fun l => l.id == leadId) = some lead)
    (hbranch : (∃ cid rest, searchCompany lead.companyName = .ok (cid :: rest) ∧
        companyId = some cid ∧
        companyResult =
          updateCompanyWithFallback req noteOp today cid (leadCompanyData lead)) ∨
      (searchCompany lead.companyName = .ok [] ∧
        companyResult = createCompanyWithFallback req noteOp today (leadCompanyData lead) ∧
        companyId = companyResult.id))
    (hsucc : companyResult.success = true)
    (hcon : lead.contact = some c)
    (hem : strTruthy c.email = some em)
    (hct : searchContact em = .ok [])
    (hcts : (createContactWithFallback req noteOp today (leadContactData lead c em)).success
      = true)
    (hctid : optStrTruthy
      (createContactWithFallback req noteOp today (leadContactData lead c em)).id = true)
    (hassoc : assocContactCompany
      ((createContactWithFallback req noteOp today (leadContactData lead c em)).id.getD "")
      (companyId.getD "") = .error msg) :
    (syncLeadToHubSpot req noteOp searchCompany searchContact assocContactCompany
        dateFmt today leads leadId).success = true ∧
    (syncLeadToHubSpot req noteOp searchCompany searchContact assocContactCompany
        dateFmt today leads leadId).hubspotId = companyId ∧
    (syncLeadToHubSpot req noteOp searchCompany searchContact assocContactCompany
        dateFmt today leads leadId).warnings.count
      ("Contact created but association failed: " ++ msg) = 1 ∧
    (syncLeadToHubSpot req noteOp searchCompany searchContact assocContactCompany
        dateFmt today leads leadId).errors =
      companyResult.errors ++
      (createContactWithFallback req noteOp today (leadContactData lead c em)).errors := by
  have hne1 : ("Some company data stored as notes due to field restrictions" ==
      "Contact created but association failed: " ++ msg) = false := by
    refine beq_eq_false_iff_ne.mpr ?_
    exact ne_append_right _ _ msg 'S' 'C' (by decide) (by decide) (by decide)
  have hne2 : ("Some contact data stored as notes due to field restrictions" ==
      "Contact created but association failed: " ++ msg) = false := by
    refine beq_eq_false_iff_ne.mpr ?_
    exact ne_append_right _ _ msg 'S' 'C' (by decide) (by decide) (by decide)
  rcases hbranch with ⟨cid, rest2, hsc, hcid, hcr⟩ | ⟨hsc, hcr, hcid⟩
  · subst hcid
    subst hcr
    have hassoc2 : assocContactCompany
        ((createContactWithFallback req noteOp today (leadContactData lead c em)).id.getD "")
        cid = .error msg := by simpa using hassoc
    simp only [syncLeadToHubSpot, hfind, hsc, hcon, hem, hct, hsucc, hcts, hctid, hassoc2]
    refine ⟨trivial, trivial, ?_, trivial⟩
    rcases hcw : (updateCompanyWithFallback req noteOp today cid
        (leadCompanyData lead)).failedFields.isEmpty with _ | _ <;>
    rcases hfw : (createContactWithFallback req noteOp today
        (leadContactData lead c em)).failedFields.isEmpty with _ | _ <;>
    cases hn : noteOp (leadNoteContent lead dateFmt) "company" cid with
    | ok nid =>
        simp [hcw, hfw, hn, hassoc2, List.count_append, List.count_cons, hne1, hne2]
    | error ne =>
        have hne3 : (("Lead synced but note creation failed: " ++ ne) ==
            "Contact created but association failed: " ++ msg) = false := by
          refine beq_eq_false_iff_ne.mpr ?_
          exact append_ne_append _ _ ne msg 'L' 'C' (by decide) (by decide) (by decide)
        simp [hcw, hfw, hn, hassoc2, List.count_append, List.count_cons, hne1, hne2, hne3]
  · subst hcr
    subst hcid
    simp only [syncLeadToHubSpot, hfind, hsc, hcon, hem, hct, hsucc, hcts, hctid, hassoc]
    refine ⟨trivial, trivial, ?_, trivial⟩
    rcases hcw : (createCompanyWithFallback req noteOp today
        (leadCompanyData lead)).failedFields.isEmpty with _ | _ <;>
    rcases hfw : (createContactWithFallback req noteOp today
        (leadContactData lead c em)).failedFields.isEmpty with _ | _ <;>
    cases hn : noteOp (leadNoteContent lead dateFmt) "company"
        ((createCompanyWithFallback req noteOp today (leadCompanyData lead)).id.getD "") with
    | ok nid =>
        simp [hcw, hfw, hn, hassoc, List.count_append, List.count_cons, hne1, hne2]
    | error ne =>
        have hne3 : (("Lead synced but note creation failed: " ++ ne) ==
            "Contact created but association failed: " ++ msg) = false := by
          refine beq_eq_false_iff_ne.mpr ?_
          exact append_ne_append _ _ ne msg 'L' 'C' (by decide) (by decide) (by decide)
        simp [hcw, hfw, hn, hassoc, List.count_append, List.count_cons, hne1, hne2, hne3]

/-- C5 witness: one lead with a contact, a transport accepting every write
and an association endpoint that throws, in both company branches — the
create branch (empty search, company id from the create) and the update
branch (existing company 77). -/
theorem syncLead_assoc_failure_isolated_witness :
    ((syncLeadToHubSpot (fun _ => .ok "1") (fun _ _ _ => .ok "n") (fun _ => .ok [])
        (fun _ => .ok []) (fun _ _ => .error "down") (fun s => s) "d"
        [⟨"L1", "Acme", none, "Oil", "OK", none, none,
          some ⟨"Ann Lee", "VP", some "a@x.com", none⟩, "f"⟩] "L1").success = true ∧
     (syncLeadToHubSpot (fun _ => .ok "1") (fun _ _ _ => .ok "n") (fun _ => .ok [])
        (fun _ => .ok []) (fun _ _ => .error "down") (fun s => s) "d"
        [⟨"L1", "Acme", none, "Oil", "OK", none, none,
          some ⟨"Ann Lee", "VP", some "a@x.com", none⟩, "f"⟩] "L1").hubspotId = some "1" ∧
     (syncLeadToHubSpot (fun _ => .ok "1") (fun _ _ _ => .ok "n") (fun _ => .ok [])
        (fun _ => .ok []) (fun _ _ => .error "down") (fun s => s) "d"
        [⟨"L1", "Acme", none, "Oil", "OK", none, none,
          some ⟨"Ann Lee", "VP", some "a@x.com", none⟩, "f"⟩] "L1").warnings.count
       ("Contact created but association failed: " ++ "down") = 1) ∧
    ((syncLeadToHubSpot (fun _ => .ok "1") (fun _ _ _ => .ok "n") (fun _ => .ok ["77"])
        (fun _ => .ok []) (fun _ _ => .error "down") (fun s => s) "d"
        [⟨"L1", "Acme", none, "Oil", "OK", none, none,
          some ⟨"Ann Lee", "VP", some "a@x.com", none⟩, "f"⟩] "L1").success = true ∧
     (syncLeadToHubSpot (fun _ => .ok "1") (fun _ _ _ => .ok "n") (fun _ => .ok ["77"])
        (fun _ => .ok []) (fun _ _ => .error "down") (fun s => s) "d"
        [⟨"L1", "Acme", none, "Oil", "OK", none, none,
          some ⟨"Ann Lee", "VP", some "a@x.com", none⟩, "f"⟩] "L1").hubspotId = some "77" ∧
     (syncLeadToHubSpot (fun _ => .ok "1") (fun _ _ _ => .ok "n") (fun _ => .ok ["77"])
        (fun _ => .ok []) (fun _ _ => .error "down") (fun s => s) "d"
        [⟨"L1", "Acme", none, "Oil", "OK", none, none,
          some ⟨"Ann Lee", "VP", some "a@x.com", none⟩, "f"⟩] "L1").warnings.count
       ("Contact created but association failed: " ++ "down") = 1) := by
  have hc := syncLead_assoc_failure_isolated (fun _ => .ok "1") (fun _ _ _ => .ok "n")
    (fun _ => .ok []) (fun _ => .ok []) (fun _ _ => .error "down") (fun s => s) "d"
    [⟨"L1", "Acme", none, "Oil", "OK", none, none,
      some ⟨"Ann Lee", "VP", some "a@x.com", none⟩, "f"⟩] "L1"
    ⟨"L1", "Acme", none, "Oil", "OK", none, none,
      some ⟨"Ann Lee", "VP", some "a@x.com", none⟩, "f"⟩
    (createCompanyWithFallback (fun _ => .ok "1") (fun _ _ _ => .ok "n") "d"
      (leadCompanyData ⟨"L1", "Acme", none, "Oil", "OK", none, none,
        some ⟨"Ann Lee", "VP", some "a@x.com", none⟩, "f"⟩)).id
    (createCompanyWithFallback (fun _ => .ok "1") (fun _ _ _ => .ok "n") "d"
      (leadCompanyData ⟨"L1", "Acme", none, "Oil", "OK", none, none,
        some ⟨"Ann Lee", "VP", some "a@x.com", none⟩, "f"⟩))
    ⟨"Ann Lee", "VP", some "a@x.com", none⟩ "a@x.com" "down"
    rfl (Or.inr ⟨rfl, rfl, rfl⟩) (by decide) rfl rfl rfl (by decide) (by decide) rfl
  have hu := syncLead_assoc_failure_isolated (fun _ => .ok "1") (fun _ _ _ => .ok "n")
    (fun _ => .ok ["77"]) (fun _ => .ok []) (fun _ _ => .error "down") (fun s => s) "d"
    [⟨"L1", "Acme", none, "Oil", "OK", none, none,
      some ⟨"Ann Lee", "VP", some "a@x.com", none⟩, "f"⟩] "L1"
    ⟨"L1", "Acme", none, "Oil", "OK", none, none,
      some ⟨"Ann Lee", "VP", some "a@x.com", none⟩, "f"⟩
    (some "77")
    (updateCompanyWithFallback (fun _ => .ok "1") (fun _ _ _ => .ok "n") "d" "77"
      (leadCompanyData ⟨"L1", "Acme", none, "Oil", "OK", none, none,
        some ⟨"Ann Lee", "VP", some "a@x.com", none⟩, "f"⟩))
    ⟨"Ann Lee", "VP", some "a@x.com", none⟩ "a@x.com" "down"
    rfl (Or.inl ⟨"77", [], rfl, rfl, rfl⟩) (by decide) rfl rfl rfl
    (by decide) (by decide) rfl
  exact ⟨⟨hc.1, hc.2.1.trans (by decide), hc.2.2.1⟩,
    ⟨hu.1, hu.2.1, hu.2.2.1⟩⟩

/-- The loop body of `performBulkSync` (src/unnamed/part_002), threading the
counters, the detail lines and — as the last component — the ids of the leads
for which `syncLeadToHubSpot` was invoked.  The progress display, the summary
alerts and the 500ms inter-call delay carry no data and are not modelled. -/
def bulkGo (sync : Lead → Except String SyncSummary) :
    List Lead → Nat → Nat → Nat → List String → List String →
    Nat × Nat × Nat × List String × List String
  | [], s, f, w, d, tr => (s, f, w, d, tr)
  | lead :: rest, s, f, w, d, tr =>
      let tr2 := tr ++ [lead.id]
      match sync lead with
      | .ok r =>
          if r.success then
            if !r.warnings.isEmpty then
              bulkGo sync rest (s + 1) f (w + 1)
                (d ++ [lead.companyName ++ ": Synced with warnings - " ++
                  String.intercalate ", " r.warnings]) tr2
            else
              bulkGo sync rest (s + 1) f w
                (d ++ [lead.companyName ++ ": Successfully synced"]) tr2
          else
            bulkGo sync rest s (f + 1) w
              (d ++ [lead.companyName ++ ": Failed - " ++
                String.intercalate ", " r.errors]) tr2
      | .error e =>
          bulkGo sync rest s (f + 1) w
            (d ++ [lead.companyName ++ ": Failed - " ++ e]) tr2

/-- The summary assembled at the end of `performBulkSync`. -/
structure BulkResults where
  successful : Nat
  failed : Nat
  warnings : Nat
  total : Nat
  details : List String
deriving DecidableEq, Repr

/-- `performBulkSync` of src/unnamed/part_002: sequential sync of every lead,
one catch per lead, with `total := leads.length`; second component is the
trace of attempted lead ids. -/
def performBulkSync (sync : Lead → Except String SyncSummary) (leads : List Lead) :
    BulkResults × List String :=
  let r := bulkGo sync leads 0 0 0 [] []
  (⟨r.1, r.2.1, r.2.2.1, leads.length, r.2.2.2.1⟩, r.2.2.2.2)

/-- Accumulator invariant of the bulk loop: each lead adds exactly one to
`successful + failed`, and every lead is attempted in input order. -/
theorem bulkGo_counts (sync : Lead → Except String SyncSummary) :
    ∀ (xs : List Lead) (s f w : Nat) (d tr : List String),
    (bulkGo sync xs s f w d tr).1 + (bulkGo sync xs s f w d tr).2.1 =
      s + f + xs.length ∧
    (bulkGo sync xs s f w d tr).2.2.2.2 = tr ++ xs.map (fun l => l.id) := by
  intro xs
  induction xs with
  | nil => intro s f w d tr; simp [bulkGo]
  | cons lead rest ih =>
      intro s f w d tr
      simp only [bulkGo]
      cases hs : sync lead with
      | ok r =>
          cases hr : r.success with
          | true =>
              cases hw : r.warnings.isEmpty with
              | true =>
                  simp only [hr, hw, Bool.not_true, Bool.false_eq_true, if_true, if_false]
                  constructor
                  · rw [(ih (s + 1) f w
                      (d ++ [lead.companyName ++ ": Successfully synced"])
                      (tr ++ [lead.id])).1]
                    simp only [List.length_cons]
                    omega
                  · rw [(ih (s + 1) f w
                      (d ++ [lead.companyName ++ ": Successfully synced"])
                      (tr ++ [lead.id])).2]
                    simp
              | false =>
                  simp only [hr, hw, Bool.not_false, if_true]
                  constructor
                  · rw [(ih (s + 1) f (w + 1)
                      (d ++ [lead.companyName ++ ": Synced with warnings - " ++
                        String.intercalate ", " r.warnings])
                      (tr ++ [lead.id])).1]
                    simp only [List.length_cons]
                    omega
                  · rw [(ih (s + 1) f (w + 1)
                      (d ++ [lead.companyName ++ ": Synced with warnings - " ++
                        String.intercalate ", " r.warnings])
                      (tr ++ [lead.id])).2]
                    simp
          | false =>
              simp only [hr, Bool.false_eq_true, if_false]
              constructor
              · rw [(ih s (f + 1) w
                  (d ++ [lead.companyName ++ ": Failed - " ++
                    String.intercalate ", " r.errors])
                  (tr ++ [lead.id])).1]
                simp only [List.length_cons]
                omega
              · rw [(ih s (f + 1) w
                  (d ++ [lead.companyName ++ ": Failed - " ++
                    String.intercalate ", " r.errors])
                  (tr ++ [lead.id])).2]
                simp
      | error e =>
          constructor
          · rw [(ih s (f + 1) w
              (d ++ [lead.companyName ++ ": Failed - " ++ e]) (tr ++ [lead.id])).1]
            simp only [List.length_cons]
            omega
          · rw [(ih s (f + 1) w
              (d ++ [lead.companyName ++ ": Failed - " ++ e]) (tr ++ [lead.id])).2]
            simp

/-- C6: bulk sync attempts every lead in input order even when a sync throws
(the trace of attempted ids is the full input id list), each lead counts as
exactly one success or one failure, and `successful + failed = total =
number of leads`; concretely, five leads with lead 3 throwing yield
`successful = 4, failed = 1, total = 5` with all five attempted. -/
theorem bulk_sync_forward_progress :
    (∀ (sync : Lead → Except String SyncSummary) (leads : List Lead),
      (performBulkSync sync leads).1.successful + (performBulkSync sync leads).1.failed =
        (performBulkSync sync leads).1.total ∧
      (performBulkSync sync leads).1.total = leads.length ∧
      (performBulkSync sync leads).2 = leads.map (fun l => l.id)) ∧
    ((performBulkSync
        (fun l => if l.id == "3" then .error "boom" else .ok ⟨true, [], [], some "h"⟩)
        [⟨"1", "C1", none, "", "", none, none, none, ""⟩,
         ⟨"2", "C2", none, "", "", none, none, none, ""⟩,
         ⟨"3", "C3", none, "", "", none, none, none, ""⟩,
         ⟨"4", "C4", none, "", "", none, none, none, ""⟩,
         ⟨"5", "C5", none, "", "", none, none, none, ""⟩]).1.successful = 4 ∧
     (performBulkSync
        (fun l => if l.id == "3" then .error "boom" else .ok ⟨true, [], [], some "h"⟩)
        [⟨"1", "C1", none, "", "", none, none, none, ""⟩,
         ⟨"2", "C2", none, "", "", none, none, none, ""⟩,
         ⟨"3", "C3", none, "", "", none, none, none, ""⟩,
         ⟨"4", "C4", none, "", "", none, none, none, ""⟩,
         ⟨"5", "C5", none, "", "", none, none, none, ""⟩]).1.failed = 1 ∧
     (performBulkSync
        (fun l => if l.id == "3" then .error "boom" else .ok ⟨true, [], [], some "h"⟩)
        [⟨"1", "C1", none, "", "", none, none, none, ""⟩,
         ⟨"2", "C2", none, "", "", none, none, none, ""⟩,
         ⟨"3", "C3", none, "", "", none, none, none, ""⟩,
         ⟨"4", "C4", none, "", "", none, none, none, ""⟩,
         ⟨"5", "C5", none, "", "", none, none, none, ""⟩]).1.total = 5 ∧
     (performBulkSync
        (fun l => if l.id == "3" then .error "boom" else .ok ⟨true, [], [], some "h"⟩)
        [⟨"1", "C1", none, "", "", none, none, none, ""⟩,
         ⟨"2", "C2", none, "", "", none, none, none, ""⟩,
         ⟨"3", "C3", none, "", "", none, none, none, ""⟩,
         ⟨"4", "C4", none, "", "", none, none, none, ""⟩,
         ⟨"5", "C5", none, "", "", none, none, none, ""⟩]).2 =
       ["1", "2", "3", "4", "5"]) := by
  constructor
  · intro sync leads
    have h := bulkGo_counts sync leads 0 0 0 [] []
    refine ⟨?_, rfl, ?_⟩
    · show (bulkGo sync leads 0 0 0 [] []).1 + (bulkGo sync leads 0 0 0 [] []).2.1 =
        leads.length
      rw [h.1]
      omega
    · show (bulkGo sync leads 0 0 0 [] []).2.2.2.2 = leads.map (fun l => l.id)
      rw [h.2]
      simp
  · exact ⟨by decide, by decide, by decide, by decide⟩

/-- `toLowerCase()`, modelled on the character list (the builtin
`String.toLower` is not reducible here). -/
def strToLower (s : String) : String := String.mk (s.data.map Char.toLower)

/-- `trim()`: drop leading and trailing whitespace, modelled on the
character list. -/
def strTrim (s : String) : String :=
  String.mk (((s.data.dropWhile Char.isWhitespace).reverse.dropWhile
    Char.isWhitespace).reverse)

/-- `startsWith(pre)`, modelled on the character list. -/
def strStartsWith (s pre : String) : Bool := pre.data.isPrefixOf s.data

/-- Collapse of whitespace runs (regex `\s+` to a single space); `prevWs`
records whether the previous character was whitespace. -/
def collapseWsGo (prevWs : Bool) : List Char → List Char
  | [] => []
  | c :: cs =>
      if c.isWhitespace then
        (if prevWs then [] else [' ']) ++ collapseWsGo true cs
      else c :: collapseWsGo false cs

/-- The company-suffix tokens removed from normalized names. -/
def companySuffixes : List String :=
  ["inc", "llc", "corp", "corporation", "company", "co", "ltd", "limited"]

/-- Emit one maximal word-character run, dropping it when it is one of the
suffix tokens (regex `\b(inc|llc|...)\b` replaced by the empty string). -/
def flushRun (run : List Char) : List Char :=
  if run.isEmpty then []
  else if companySuffixes.contains (String.mk run) then [] else run

/-- Scan of the character list accumulating the current word-character run in
`acc`; non-word characters flush the run. -/
def removeRunsGo (acc : List Char) : List Char → List Char
  | [] => flushRun acc
  | c :: cs =>
      if isWordChar c then removeRunsGo (acc ++ [c]) cs
      else flushRun acc ++ c :: removeRunsGo [] cs

/-- `normalizeCompanyName` of src/unnamed/part_003: lowercase, trim, collapse
whitespace, remove non-word non-space characters, remove company suffix
tokens as whole words, trim. -/
def normalizeCompanyName (name : String) : String :=
  let lowered := strTrim (strToLower name)
  let collapsed := collapseWsGo false lowered.data
  let filtered := collapsed.filter (fun c => isWordChar c || c.isWhitespace)
  strTrim (String.mk (removeRunsGo [] filtered))

/-- Characters after the first occurrence of `://`, if any. -/
def breakOnScheme : List Char → Option (List Char)
  | ':' :: '/' :: '/' :: rest => some rest
  | _ :: rest => breakOnScheme rest
  | [] => none

/-- Characters after the last `@` (the whole list when there is none). -/
def afterLastAt (l : List Char) : List Char :=
  (l.reverse.takeWhile (fun c => !(c == '@'))).reverse

/-- Hostname extraction of the `new URL(...)` platform builtin, modelled for
the `http(s)` URLs this code feeds it: the authority after `://` up to the
first `/`, `?` or `#`, past any userinfo `@`, before any `:port`; a string
without `://` or with an empty host fails to parse. -/
def parseHostname (u : String) : Option String :=
  match breakOnScheme u.data with
  | none => none
  | some rest =>
      let authority := rest.takeWhile (fun c => !(c == '/' || c == '?' || c == '#'))
      let hostPort := afterLastAt authority
      let host := hostPort.takeWhile (fun c => !(c == ':'))
      if host.isEmpty then none else some (String.mk host)

/-- `replace(/^www\./, '')`. -/
def stripWww (h : String) : String :=
  if strStartsWith h "www." then h.drop 4 else h

/-- `extractDomain` of src/unnamed/part_003: prefix `https://` when the link
does not start with `http`, parse, lowercase the hostname and strip a leading
`www.`; empty string on parse failure. -/
def extractDomain (url : String) : String :=
  if url == "" then ""
  else
    let u := if strStartsWith url "http" then url else "https://" ++ url
    match parseHostname u with
    | some h => stripWww (strToLower h)
    | none => ""

/-- `phone.replace(/\D/g, '')`. -/
def digitsOf (s : String) : String := String.mk (s.data.filter Char.isDigit)

/-- `normalizePhone` of src/unnamed/part_003: strip non-digits; a 10-digit
string is returned as is, an 11-digit string starting with 1 loses the
leading 1, and any other digit string is returned unchanged. -/
def normalizePhone (phone : String) : String :=
  if phone == "" then ""
  else
    let digits := digitsOf phone
    if digits.length == 10 then digits
    else if digits.length == 11 && strStartsWith digits "1" then digits.drop 1
    else digits

/-- Mirrors `interface SerpAPILocalResult` (the fields that feed
deduplication; the numeric metadata fields play no role there). -/
structure SerpAPILocalResult where
  title : String
  link : Option String := none
  address : Option String := none
  phone : Option String := none
  snippet : Option String := none
deriving DecidableEq, Repr

/-- `generateDeduplicationKey` of src/unnamed/part_003: first non-empty of
normalized phone, normalized domain, normalized name, with the combined
fallback key. -/
def generateDeduplicationKey (result : SerpAPILocalResult) : String :=
  let name := normalizeCompanyName result.title
  let domain := extractDomain (result.link.getD "")
  let phone := normalizePhone (result.phone.getD "")
  if phone ≠ "" then "phone:" ++ phone
  else if domain ≠ "" then "domain:" ++ domain
  else if name ≠ "" then "name:" ++ name
  else "combined:" ++ name ++ "|" ++ domain ++ "|" ++ phone

/-- The loop of `deduplicateResults` with its `seen` key set (a list here;
only membership is used). -/
def dedupGo (key : SerpAPILocalResult → String) :
    List SerpAPILocalResult → List String → List SerpAPILocalResult
  | [], _ => []
  | r :: rs, seen =>
      let k := key r
      if seen.contains k then dedupGo key rs seen
      else r :: dedupGo key rs (k :: seen)

/-- `deduplicateResults` of src/unnamed/part_003. -/
def deduplicateResults (results : List SerpAPILocalResult) : List SerpAPILocalResult :=
  dedupGo generateDeduplicationKey results []

/-- First-occurrence deduplication as the specification states it: keep the
first result under each key and drop every later result with the same key,
preserving order. -/
def specDedup (key : SerpAPILocalResult → String) :
    List SerpAPILocalResult → List SerpAPILocalResult
  | [] => []
  | x :: xs => x :: specDedup key (xs.filter (fun y => !(key y == key x)))
termination_by l => l.length
decreasing_by
  simp only [List.length_cons]
  exact Nat.lt_succ_of_le (List.length_filter_le _ _)

/-- The loop is first-occurrence filtering relative to the keys already seen. -/
theorem dedupGo_eq_specDedup (key : SerpAPILocalResult → String) :
    ∀ (xs : List SerpAPILocalResult) (seen : List String),
    dedupGo key xs seen = specDedup key (xs.filter (fun y => !(seen.contains (key y)))) := by
  intro xs
  induction xs with
  | nil => intro seen; simp [dedupGo, specDedup]
  | cons x xs ih =>
      intro seen
      cases hx : seen.contains (key x) with
      | true =>
          simp only [dedupGo, hx, if_true, List.filter_cons, Bool.not_true,
            Bool.false_eq_true, if_false]
          exact ih seen
      | false =>
          simp only [dedupGo, hx, Bool.false_eq_true, if_false, List.filter_cons,
            Bool.not_false, if_true]
          rw [specDedup, ih (key x :: seen), List.filter_filter]
          have hfe : List.filter (fun y => !(key x :: seen).contains (key y)) xs =
              List.filter (fun a => !(key a == key x) && !seen.contains (key a)) xs := by
            apply List.filter_congr
            intro y _
            cases h1 : key y == key x <;>
              cases h2 : seen.contains (key y) <;>
                simp only [List.contains_cons, h1, h2, Bool.or_false, Bool.or_true,
                  Bool.false_or, Bool.true_or, Bool.not_true, Bool.not_false,
                  Bool.and_false, Bool.and_true, Bool.false_and, Bool.true_and]
          rw [hfe]

/-- C7: `deduplicateResults` keeps exactly the first result for each
deduplication key, dropping every later result with the same key and
preserving input order; the key is the first non-empty of normalized phone,
normalized domain and normalized name, with the composite fallback when all
three are empty. -/
theorem deduplicate_first_occurrence :
    (∀ xs : List SerpAPILocalResult,
      deduplicateResults xs = specDedup generateDeduplicationKey xs) ∧
    (∀ r : SerpAPILocalResult,
      generateDeduplicationKey r =
        (if normalizePhone (r.phone.getD "") ≠ "" then
          "phone:" ++ normalizePhone (r.phone.getD "")
        else if extractDomain (r.link.getD "") ≠ "" then
          "domain:" ++ extractDomain (r.link.getD "")
        else if normalizeCompanyName r.title ≠ "" then
          "name:" ++ normalizeCompanyName r.title
        else
          "combined:" ++ normalizeCompanyName r.title ++ "|" ++
            extractDomain (r.link.getD "") ++ "|" ++ normalizePhone (r.phone.getD ""))) := by
  constructor
  · intro xs
    rw [deduplicateResults, dedupGo_eq_specDedup]
    congr 1
    simp
  · intro r
    rfl

/-- The dedup loop is idempotent: feeding its output back in with the same
seen set changes nothing. -/
theorem dedupGo_idem (key : SerpAPILocalResult → String) :
    ∀ (xs : List SerpAPILocalResult) (seen : List String),
    dedupGo key (dedupGo key xs seen) seen = dedupGo key xs seen := by
  intro xs
  induction xs with
  | nil => intro seen; simp [dedupGo]
  | cons x xs ih =>
      intro seen
      cases hx : seen.contains (key x) with
      | true =>
          simp only [dedupGo, hx, if_true]
          exact ih seen
      | false =>
          simp only [dedupGo, hx, Bool.false_eq_true, if_false]
          rw [ih (key x :: seen)]

/-- C9: deduplication is idempotent. -/
theorem deduplicate_idempotent :
    ∀ xs : List SerpAPILocalResult,
    deduplicateResults (deduplicateResults xs) = deduplicateResults xs := by
  intro xs
  exact dedupGo_idem generateDeduplicationKey xs []

/-- The phone normalization as the specification describes it, for comparison:
strip non-digits, drop the leading 1 from an 11-digit number, and keep the
result only when exactly 10 digits remain, else empty. -/
def normalizePhoneClaim (phone : String) : String :=
  let digits := digitsOf phone
  let digits := if digits.length == 11 && strStartsWith digits "1" then digits.drop 1 else digits
  if digits.length == 10 then digits else ""

/-- A string of characters is empty exactly when the character list is. -/
theorem stringMk_eq_empty_iff (l : List Char) : String.mk l = "" ↔ l = [] := by
  constructor
  · intro h
    have := congrArg String.data h
    simpa using this
  · intro h
    rw [h]

/-- C8 counterexample: for the phone string "123" the code keeps the 3-digit
string (the claim says it should be treated as empty), so a result carrying a
usable domain is still keyed by the phone and never falls through. -/
theorem normalizePhone_claim_counterexample :
    normalizePhone "123" = "123" ∧
    normalizePhoneClaim "123" = "" ∧
    normalizePhone "123" ≠ normalizePhoneClaim "123" ∧
    extractDomain "acme.com" = "acme.com" ∧
    generateDeduplicationKey ⟨"Acme Drilling", some "acme.com", none, some "123", none⟩ =
      "phone:123" := by
  refine ⟨by decide, by decide, by decide, by decide, by decide⟩

/-- C8 amended: the normalized phone strips all non-digit characters, drops
the leading digit when exactly 11 digits remain starting with 1, and
otherwise keeps the digit string unchanged (a 10-digit string as is); the
phone component is empty — so the key derivation falls through to domain or
name — exactly when the phone string contains no digit at all. -/
theorem normalizePhone_amended (s : String) :
    ((digitsOf s).length = 10 → normalizePhone s = digitsOf s) ∧
    ((digitsOf s).length = 11 → strStartsWith (digitsOf s) "1" = true →
      normalizePhone s = (digitsOf s).drop 1) ∧
    ((digitsOf s).length ≠ 10 →
      ¬((digitsOf s).length = 11 ∧ strStartsWith (digitsOf s) "1" = true) →
      normalizePhone s = digitsOf s) ∧
    (normalizePhone s = "" ↔ digitsOf s = "") := by
  by_cases hs : s = ""
  · subst hs
    refine ⟨?_, ?_, ?_, ?_⟩ <;> simp [normalizePhone, digitsOf]
  · have hsb : (s == "") = false := beq_eq_false_iff_ne.mpr hs
    have hempty : digitsOf s = "" ↔ (digitsOf s).length = 0 := by
      rw [digitsOf, stringMk_eq_empty_iff]
      simp [String.length]
    refine ⟨?_, ?_, ?_, ?_⟩
    · intro h10
      have hb : ((digitsOf s).length == 10) = true := by simp [h10]
      simp [normalizePhone, hsb, hb]
    · intro h11 hsw
      have hb10 : ((digitsOf s).length == 10) = false := by simp [h11]
      have hb11 : ((digitsOf s).length == 11) = true := by simp [h11]
      simp [normalizePhone, hsb, hb10, hb11, hsw]
    · intro hn10 hn11
      have hb10 : ((digitsOf s).length == 10) = false := by simp [hn10]
      by_cases h11 : (digitsOf s).length = 11
      · have hswf : strStartsWith (digitsOf s) "1" = false := by
          cases hsw : strStartsWith (digitsOf s) "1" with
          | true => exact absurd ⟨h11, hsw⟩ hn11
          | false => rfl
        simp [normalizePhone, hsb, hb10, hswf]
      · have hb11 : ((digitsOf s).length == 11) = false := by simp [h11]
        simp [normalizePhone, hsb, hb10, hb11]
    · by_cases h10 : (digitsOf s).length = 10
      · have hb : ((digitsOf s).length == 10) = true := by simp [h10]
        simp only [normalizePhone, hsb, Bool.false_eq_true, if_false, hb, if_true]
      · have hb10 : ((digitsOf s).length == 10) = false := by simp [h10]
        by_cases h11 : (digitsOf s).length = 11 ∧ strStartsWith (digitsOf s) "1" = true
        · have hb11 : ((digitsOf s).length == 11) = true := by simp [h11.1]
          simp only [normalizePhone, hsb, Bool.false_eq_true, if_false, hb10, hb11,
            h11.2, Bool.and_self, if_true]
          constructor
          · intro hd
            have hlen := congrArg String.length hd
            have : ((digitsOf s).drop 1).length = (digitsOf s).length - 1 := by
              show ((digitsOf s).drop 1).data.length = (digitsOf s).data.length - 1
              rw [String.data_drop]
              simp
            rw [this, h11.1] at hlen
            simp [String.length] at hlen
          · intro hd
            rw [hd] at h11
            simp [String.length] at h11
        · have hite : ¬(((digitsOf s).length == 11 && strStartsWith (digitsOf s) "1") = true) := by
            intro hc
            simp only [Bool.and_eq_true, beq_iff_eq] at hc
            exact h11 hc
          have hb : ((digitsOf s).length == 11 && strStartsWith (digitsOf s) "1") = false := by
            cases hc : ((digitsOf s).length == 11 && strStartsWith (digitsOf s) "1") with
            | true => exact absurd hc hite
            | false => rfl
          simp [normalizePhone, hsb, hb10, hb]

/-- C8 amended witness: an 11-digit phone starting with 1 loses the leading
digit, and the empty-phone fall-through criterion at a 3-digit phone. -/
theorem normalizePhone_amended_witness :
    normalizePhone "1 (234) 567-8901" = "2345678901" ∧
    (normalizePhone "555" = "" ↔ digitsOf "555" = "") := by
  constructor
  · have h := (normalizePhone_amended "1 (234) 567-8901").2.1 (by decide) (by decide)
    rw [h]
    decide
  · exact (normalizePhone_amended "555").2.2.2
